import Mathlib

/-!
# AstroScope: verification of the orbit propagator and impact physics engine

Shallow embedding of the two numerical engines of the AstroScope repository:

* the Keplerian orbit propagator (`updatePositions` / `solveKepler` in
  `src/astroscope/static/js/model.js` and in the unnamed source file
  `src/unnamed/part_000`), and
* the impact physics engine (`calculateImpactRadius`, `estimateCasualties` in
  `src/unnamed/part_001`; the Palermo-scale part of `recalc` in
  `src/astroscope/static/js/impact-calculator.js`).

JavaScript `number` values are modelled as real numbers (`ℝ`); the
JavaScript remainder operator `%` and `Math.round` are modelled exactly
(truncated division, round half toward positive infinity); `throw` is
modelled as `Option.none`.  String-valued classification results are
modelled by inductive types with one constructor per string the source can
produce.  three.js rotation matrices (`makeRotationX/Y/Z`, column-vector
action) are modelled as functions on a record of three reals.
-/

namespace AstroScope

noncomputable section

/-- A 3-component vector, as three.js `Vector3`. -/
structure Vec3 where
  x : ℝ
  y : ℝ
  z : ℝ

/-- three.js `Matrix4.makeRotationX(θ)` applied to a column vector. -/
def rotX (θ : ℝ) (v : Vec3) : Vec3 :=
  ⟨v.x, Real.cos θ * v.y - Real.sin θ * v.z, Real.sin θ * v.y + Real.cos θ * v.z⟩

/-- three.js `Matrix4.makeRotationY(θ)` applied to a column vector. -/
def rotY (θ : ℝ) (v : Vec3) : Vec3 :=
  ⟨Real.cos θ * v.x + Real.sin θ * v.z, v.y, -Real.sin θ * v.x + Real.cos θ * v.z⟩

/-- three.js `Matrix4.makeRotationZ(θ)` applied to a column vector. -/
def rotZ (θ : ℝ) (v : Vec3) : Vec3 :=
  ⟨Real.cos θ * v.x - Real.sin θ * v.y, Real.sin θ * v.x + Real.cos θ * v.y, v.z⟩

/-- `THREE.MathUtils.degToRad`. -/
def degToRad (d : ℝ) : ℝ := d * (Real.pi / 180)

/-- Truncation toward zero, as JavaScript division-based remainder uses. -/
def jsTrunc (x : ℝ) : ℤ := if 0 ≤ x then ⌊x⌋ else ⌈x⌉

/-- The JavaScript remainder `a % b` for finite `a` and positive finite `b`:
`a - b * trunc (a / b)`; the result takes the sign of the dividend `a`. -/
def jsRem (a b : ℝ) : ℝ := a - b * jsTrunc (a / b)

/-- JavaScript `Math.round`: round half toward positive infinity. -/
def jsRound (x : ℝ) : ℤ := ⌊x + 1 / 2⌋

/-- Orbital elements of one body, the fields `updatePositions` reads from
`data` (`model.js` lines 553–570, `part_000` lines 513–530). -/
structure OrbitalElements where
  a : ℝ
  e : ℝ
  i : ℝ
  Omega : ℝ
  varpi : ℝ
  L : ℝ
  orbitalPeriod : ℝ

/-- Mean anomaly in degrees, `model.js` lines 559–562 (identical in
`part_000` lines 519–522):
`M0 = data.L - data.varpi; n = 360 / data.orbitalPeriod;
M = (M0 + n * daysSinceJ2000) % 360`. -/
def meanAnomalyDeg (data : OrbitalElements) (daysSinceJ2000 : ℝ) : ℝ :=
  jsRem (data.L - data.varpi + 360 / data.orbitalPeriod * daysSinceJ2000) 360

/-- One Newton–Raphson update of the Kepler solver,
`E = E - (E - e * Math.sin(E) - M) / (1 - e * Math.cos(E))`. -/
def newtonStep (e M E : ℝ) : ℝ :=
  E - (E - e * Real.sin E - M) / (1 - e * Real.cos E)

/-- The iterates of `solveKepler`'s loop: `E` starts at `M` and is updated
`n` times. -/
def solveKeplerAux (M e : ℝ) : ℕ → ℝ
  | 0 => M
  | n + 1 => newtonStep e M (solveKeplerAux M e n)

/-- `solveKepler(M, e)` of `model.js` line 615 / `part_000` line 558:
`let E = M; for (let i = 0; i < 7; i++) E = E - (E - e*Math.sin(E) - M) / (1 - e*Math.cos(E)); return E`. -/
def solveKepler (M e : ℝ) : ℝ := solveKeplerAux M e 7

/-- Orbital-plane x coordinate, `x_orb = a_scaled * (Math.cos(E) - data.e)`
(`model.js` line 569). -/
def x_orb (a_scaled e E : ℝ) : ℝ := a_scaled * (Real.cos E - e)

/-- Orbital-plane y coordinate,
`y_orb = a_scaled * Math.sqrt(1 - data.e ** 2) * Math.sin(E)`
(`model.js` line 570). -/
def y_orb (a_scaled e E : ℝ) : ℝ :=
  a_scaled * Real.sqrt (1 - e ^ 2) * Real.sin E

/-- The rotation pipeline of `part_000` lines 532–541: in ecliptic
coordinates, `omega = varpi - Omega` (degrees), and the orbital-plane vector
`(x_orb, y_orb, 0)` is taken through `Rz(omega)`, then `Rx(i)`, then
`Rz(Omega)`.  (Line 544 then remaps ecliptic `(X, Y, Z)` to the three.js
world as `(X, Z, -Y)`; the propagator's contract is the ecliptic triple.) -/
def part000Ecliptic (i Omega varpi xo yo : ℝ) : Vec3 :=
  rotZ (degToRad Omega)
    (rotX (degToRad i)
      (rotZ (degToRad (varpi - Omega)) ⟨xo, yo, 0⟩))

/-- The rotation pipeline of `model.js` lines 576–593, in three.js world
coordinates: the orbital-plane vector is laid out as `(x_orb, 0, -y_orb)`
and the matrix `Ry(Omega) · Rx(i) · Ry(varpi)` is applied — the innermost
rotation angle is `varpi` itself, taken straight from `data.varpi`. -/
def modelJsWorld (i Omega varpi xo yo : ℝ) : Vec3 :=
  rotY (degToRad Omega)
    (rotX (degToRad i)
      (rotY (degToRad varpi) ⟨xo, 0, -yo⟩))

/-- The three.js world-to-ecliptic coordinate change inverse to
`(X, Y, Z) ↦ (X, Z, -Y)` (`part_000` line 544): world `(x, y, z)` is
ecliptic `(x, -z, y)`. -/
def worldToEcliptic (v : Vec3) : Vec3 := ⟨v.x, -v.z, v.y⟩

/-- The ecliptic-frame position `model.js` lines 576–593 compute, read back
through the world-to-ecliptic coordinate change. -/
def modelJsEcliptic (i Omega varpi xo yo : ℝ) : Vec3 :=
  worldToEcliptic (modelJsWorld i Omega varpi xo yo)

/-- The rotation the specification claims (spec §4.1 step 5): ecliptic
position `R_z(Omega) · R_x(i) · R_z(omega)` applied to `(x_orb, y_orb, 0)`,
with innermost angle the argument of perihelion `omega = varpi - Omega`. -/
def claimedEcliptic (i Omega varpi xo yo : ℝ) : Vec3 :=
  rotZ (degToRad Omega)
    (rotX (degToRad i)
      (rotZ (degToRad (varpi - Omega)) ⟨xo, yo, 0⟩))

/-! ## Impact physics engine (`src/unnamed/part_001`) -/

/-- JavaScript `Math.cbrt`: the sign-preserving real cube root. -/
def cbrt (x : ℝ) : ℝ :=
  if 0 ≤ x then x ^ ((1 : ℝ) / 3) else -((-x) ^ ((1 : ℝ) / 3))

/-- The damage classification strings `calculateImpactRadius` can produce
(`part_001` lines 57–64). -/
inductive DamageClass
  | severe
  | moderate
  | light
deriving DecidableEq

/-- The numeric and classification fields of the result object of
`calculateImpactRadius` (`part_001` lines 67–79; the `input_parameters`
echo of the arguments is omitted). -/
structure ImpactResult where
  kinetic_energy_joules : ℝ
  kinetic_energy_megatons : ℝ
  severe_radius_km : ℝ
  moderate_radius_km : ℝ
  light_radius_km : ℝ
  damage_classification : DamageClass

/-- The kinetic energy of `part_001` line 36 (and line 102):
`(Math.PI / 12) * d * (dia ** 3) * (s ** 2)`. -/
def kineticEnergy (d s dia : ℝ) : ℝ :=
  Real.pi / 12 * d * dia ^ 3 * s ^ 2

/-- The computation part of `calculateImpactRadius` (`part_001` lines
33–79), after the input validation has passed. -/
def impactCore (d s dia : ℝ) : ImpactResult :=
  let kE := kineticEnergy d s dia
  let impactPowerThird := cbrt kE
  let severe_radius_km := 1.8e-4 * impactPowerThird / 1000
  let moderate_radius_km := 4.0e-4 * impactPowerThird / 1000
  let light_radius_km := 8.0e-4 * impactPowerThird / 1000
  { kinetic_energy_joules := kE
    kinetic_energy_megatons := kE / 4.184e15
    severe_radius_km := severe_radius_km
    moderate_radius_km := moderate_radius_km
    light_radius_km := light_radius_km
    damage_classification :=
      if 5 < severe_radius_km then .severe
      else if 2 < moderate_radius_km then .moderate
      else .light }

/-- `calculateImpactRadius(density, speed, diameter)` (`part_001` lines
18–82): `none` models the thrown `Error` when an input is non-positive
(the `isNaN` branch has no counterpart over `ℝ`). -/
def calculateImpactRadius (density speed diameter : ℝ) : Option ImpactResult :=
  if density ≤ 0 ∨ speed ≤ 0 ∨ diameter ≤ 0 then none
  else some (impactCore density speed diameter)

/-- The per-zone casualty and area fields of the result object of
`estimateCasualties` (`part_001` lines 152–163). -/
structure CasualtyResult where
  severe_casualties : ℤ
  moderate_casualties : ℤ
  light_casualties : ℤ
  total_casualties : ℤ
  severe_area_km2 : ℝ
  moderate_area_km2 : ℝ
  light_area_km2 : ℝ
  total_area_km2 : ℝ

/-- `estimateCasualties(severe_radius_km, moderate_radius_km,
light_radius_km, population_density = 100)` (`part_001` lines 128–164):
`none` models the thrown `Error` when an input is negative (the check is
`x < 0`); areas are `π r²`, fatality fractions 0.9 / 0.3 / 0.05,
casualties rounded with `Math.round`. -/
def estimateCasualties (severe_r moderate_r light_r : ℝ)
    (pop_density : ℝ := 100) : Option CasualtyResult :=
  if severe_r < 0 ∨ moderate_r < 0 ∨ light_r < 0 ∨ pop_density < 0 then none
  else
    let severe_area_km2 := Real.pi * severe_r * severe_r
    let moderate_area_km2 := Real.pi * moderate_r * moderate_r
    let light_area_km2 := Real.pi * light_r * light_r
    let severe_casualties := severe_area_km2 * pop_density * 0.9
    let moderate_casualties := moderate_area_km2 * pop_density * 0.3
    let light_casualties := light_area_km2 * pop_density * 0.05
    some
      { severe_casualties := jsRound severe_casualties
        moderate_casualties := jsRound moderate_casualties
        light_casualties := jsRound light_casualties
        total_casualties :=
          jsRound (severe_casualties + moderate_casualties + light_casualties)
        severe_area_km2 := severe_area_km2
        moderate_area_km2 := moderate_area_km2
        light_area_km2 := light_area_km2
        total_area_km2 := severe_area_km2 + moderate_area_km2 + light_area_km2 }

/-! ## Palermo scale (`src/astroscope/static/js/impact-calculator.js`) -/

/-- `energyFromSizeMt(d_m, rho, v_kms)` (`impact-calculator.js` lines
85–95): mass of a sphere, `0.5·m·v²` in Joules, converted to megatons by
`MT_J = 4.184e15`; `none` models the `NaN` returned for non-positive
input (`!x` on a positive-typed quantity coincides with `x ≤ 0` over `ℝ`). -/
def energyFromSizeMt (d_m rho v_kms : ℝ) : Option ℝ :=
  if d_m ≤ 0 ∨ rho ≤ 0 ∨ v_kms ≤ 0 then none
  else
    let m := Real.pi / 6 * rho * d_m ^ 3
    let v := v_kms * 1000
    let EJ := 0.5 * m * v * v
    some (EJ / 4.184e15)

/-- The Palermo scale formula of `recalc` (`impact-calculator.js` line
156): `PS = Math.log10((Pi / Ti) / fbVal)`. -/
def palermoPS (pIm tIm fb : ℝ) : ℝ := Real.logb 10 (pIm / tIm / fb)

/-- The guard of `recalc` (line 154): the Palermo scale is computed only
when probability, years and background frequency are all positive. -/
def recalcPS (pIm tIm fb : ℝ) : Option ℝ :=
  if 0 < pIm ∧ 0 < tIm ∧ 0 < fb then some (palermoPS pIm tIm fb) else none

/-- The interpretation strings of `recalc` (line 163). -/
inductive PSBand
  | aboveBackground
  | comparableToBackground
  | wellBelowBackground
deriving DecidableEq

/-- The interpretation ladder of `recalc` (line 163):
`PS > 0 ? 'Above background risk' : (PS > -2 ? 'Comparable to background'
: 'Well below background')`. -/
def psInterp (PS : ℝ) : PSBand :=
  if 0 < PS then .aboveBackground
  else if -2 < PS then .comparableToBackground
  else .wellBelowBackground

end

/-! ## Theorems -/

/-- With eccentricity `0` the Newton update fixes every iterate at `M`. -/
theorem solveKeplerAux_zero_ecc (M : ℝ) (n : ℕ) : solveKeplerAux M 0 n = M := by
  induction n with
  | zero => rfl
  | succ n ih =>
    simp only [solveKeplerAux, newtonStep, ih, zero_mul, sub_zero, mul_comm]
    ring

/-- C9: for every mean anomaly `M`, `solveKepler M 0 = M`: with zero
eccentricity the Newton iteration maps the seed `E = M` to `M` at every
one of the 7 steps, so the eccentric anomaly of a circular orbit equals
the mean anomaly. -/
theorem solveKepler_zero_eccentricity (M : ℝ) : solveKepler M 0 = M :=
  solveKeplerAux_zero_ecc M 7

/-- C7: for `0 ≤ e < 1` and a nondegenerate scaled semi-major axis
`a_s ≠ 0`, the orbital-plane position `(x_orb, y_orb)` computed by
`updatePositions` satisfies the focus-at-origin ellipse equation
`(x_orb + a_s·e)²/a_s² + y_orb²/(a_s²(1−e²)) = 1` exactly over `ℝ`. -/
theorem orbit_position_on_ellipse (a_s e E : ℝ) (ha : a_s ≠ 0)
    (he0 : 0 ≤ e) (he1 : e < 1) :
    (x_orb a_s e E + a_s * e) ^ 2 / a_s ^ 2
      + y_orb a_s e E ^ 2 / (a_s ^ 2 * (1 - e ^ 2)) = 1 := by
  have he2 : (0 : ℝ) ≤ 1 - e ^ 2 := by nlinarith
  have he2' : (1 : ℝ) - e ^ 2 ≠ 0 := by nlinarith
  have hsq : Real.sqrt (1 - e ^ 2) ^ 2 = 1 - e ^ 2 := Real.sq_sqrt he2
  have hx : x_orb a_s e E + a_s * e = a_s * Real.cos E := by
    unfold x_orb; ring
  have h1 : (x_orb a_s e E + a_s * e) ^ 2 / a_s ^ 2 = Real.cos E ^ 2 := by
    rw [hx, mul_pow, mul_div_cancel_left₀ _ (pow_ne_zero 2 ha)]
  have h2 : y_orb a_s e E ^ 2 / (a_s ^ 2 * (1 - e ^ 2)) = Real.sin E ^ 2 := by
    unfold y_orb
    rw [mul_pow, mul_pow, hsq,
      mul_div_cancel_left₀ _ (mul_ne_zero (pow_ne_zero 2 ha) he2')]
  rw [h1, h2, add_comm]
  exact Real.sin_sq_add_cos_sq E

/-- Witness for C7 at `a_s = 2`, `e = 1/2`, `E = 0`. -/
theorem orbit_position_on_ellipse_witness :
    (x_orb 2 (1 / 2) 0 + 2 * (1 / 2)) ^ 2 / 2 ^ 2
      + y_orb 2 (1 / 2) 0 ^ 2 / (2 ^ 2 * (1 - (1 / 2) ^ 2)) = 1 :=
  orbit_position_on_ellipse 2 (1 / 2) 0 (by norm_num) (by norm_num) (by norm_num)

/-- The kinetic energy is nonnegative for nonnegative inputs. -/
theorem kineticEnergy_nonneg (d s dia : ℝ) (hd : 0 ≤ d) (_hs : 0 ≤ s)
    (hdia : 0 ≤ dia) : 0 ≤ kineticEnergy d s dia := by
  unfold kineticEnergy
  positivity

/-- `Math.cbrt` is nonnegative on nonnegative input. -/
theorem cbrt_nonneg (x : ℝ) (hx : 0 ≤ x) : 0 ≤ cbrt x := by
  unfold cbrt
  rw [if_pos hx]
  exact Real.rpow_nonneg hx _

/-- C4: on every valid (positive) input, the three radii returned by
`calculateImpactRadius` are nested, `severe ≤ moderate ≤ light`: each is
`k · E^(1/3) / 1000` for the same energy `E` with
`1.8e-4 < 4.0e-4 < 8.0e-4`. -/
theorem damage_radii_ordered (density speed diameter : ℝ)
    (hd : 0 < density) (hs : 0 < speed) (hdia : 0 < diameter)
    (r : ImpactResult)
    (hr : calculateImpactRadius density speed diameter = some r) :
    r.severe_radius_km ≤ r.moderate_radius_km ∧
      r.moderate_radius_km ≤ r.light_radius_km := by
  rw [calculateImpactRadius,
    if_neg (by simp only [not_or, not_le]; exact ⟨hd, hs, hdia⟩)] at hr
  obtain rfl : r = impactCore density speed diameter := (Option.some.inj hr).symm
  have hc : 0 ≤ cbrt (kineticEnergy density speed diameter) :=
    cbrt_nonneg _ (kineticEnergy_nonneg _ _ _ hd.le hs.le hdia.le)
  simp only [impactCore]
  constructor <;> gcongr <;> norm_num

/-- Witness for C4 at density `1`, speed `1`, diameter `1`. -/
theorem damage_radii_ordered_witness :
    (impactCore 1 1 1).severe_radius_km ≤ (impactCore 1 1 1).moderate_radius_km ∧
      (impactCore 1 1 1).moderate_radius_km ≤ (impactCore 1 1 1).light_radius_km :=
  damage_radii_ordered 1 1 1 (by norm_num) (by norm_num) (by norm_num)
    (impactCore 1 1 1)
    (by rw [calculateImpactRadius, if_neg (by norm_num)])

/-- The pipeline of `part_000` lines 532–541 is literally the claimed
composition `R_z(Ω) · R_x(i) · R_z(ϖ − Ω)` on ecliptic coordinates. -/
theorem part000_matches_claimed (i Omega varpi xo yo : ℝ) :
    part000Ecliptic i Omega varpi xo yo = claimedEcliptic i Omega varpi xo yo :=
  rfl

/-- The `model.js` pipeline, read in ecliptic coordinates, is the
composition `R_z(Ω) · R_x(i) · R_z(ϖ)` — the innermost angle is the
longitude of perihelion `ϖ`, with no `− Ω` correction. -/
theorem modelJs_ecliptic_eq (i Omega varpi xo yo : ℝ) :
    modelJsEcliptic i Omega varpi xo yo =
      rotZ (degToRad Omega)
        (rotX (degToRad i) (rotZ (degToRad varpi) ⟨xo, yo, 0⟩)) := by
  simp only [modelJsEcliptic, modelJsWorld, worldToEcliptic, rotX, rotY, rotZ,
    Vec3.mk.injEq]
  refine ⟨by ring, by ring, by ring⟩

/-- C1: at inclination `0°`, node longitude `Ω = 90°`, perihelion
longitude `ϖ = 90°` and orbital-plane position `(1, 0)`, the `model.js`
propagator places the body at ecliptic `(−1, 0, 0)`, while the claimed
composition with innermost angle `ω = ϖ − Ω = 0` places it at
`(0, 1, 0)` (where `part_000` agrees with the claim): `model.js` rotates
innermost by `ϖ` itself, not by `ω`. -/
theorem modelJs_rotation_uses_varpi_not_omega :
    modelJsEcliptic 0 90 90 1 0 = ⟨-1, 0, 0⟩ ∧
    claimedEcliptic 0 90 90 1 0 = ⟨0, 1, 0⟩ ∧
    part000Ecliptic 0 90 90 1 0 = ⟨0, 1, 0⟩ ∧
    modelJsEcliptic 0 90 90 1 0 ≠ claimedEcliptic 0 90 90 1 0 := by
  have h90 : degToRad 90 = Real.pi / 2 := by unfold degToRad; ring
  have h00 : degToRad 0 = 0 := by unfold degToRad; ring
  have hsub : degToRad (90 - 90) = 0 := by norm_num [degToRad]
  have hm : modelJsEcliptic 0 90 90 1 0 = ⟨-1, 0, 0⟩ := by
    simp [modelJsEcliptic, modelJsWorld, worldToEcliptic, rotX, rotY, rotZ,
      h90, h00, Real.cos_pi_div_two, Real.sin_pi_div_two, Vec3.mk.injEq]
  have hc : claimedEcliptic 0 90 90 1 0 = ⟨0, 1, 0⟩ := by
    simp [claimedEcliptic, rotX, rotZ, h90, h00, hsub,
      Real.cos_pi_div_two, Real.sin_pi_div_two, Vec3.mk.injEq]
  refine ⟨hm, hc, hc, ?_⟩
  rw [hm, hc]
  intro h
  rw [Vec3.mk.injEq] at h
  norm_num at h

/-- C3 counterexample: a body with `L = 0`, `ϖ = 0`, period 360 days, at
90 days before the J2000 epoch: the JavaScript remainder gives mean
anomaly `−90°`, outside `[0°, 360°)` (the mathematical mod would give
`270°`). -/
theorem meanAnomaly_negative_before_epoch :
    meanAnomalyDeg ⟨1, 0, 0, 0, 0, 0, 360⟩ (-90) = -90 ∧
      ¬ 0 ≤ meanAnomalyDeg ⟨1, 0, 0, 0, 0, 0, 360⟩ (-90) := by
  have h : meanAnomalyDeg ⟨1, 0, 0, 0, 0, 0, 360⟩ (-90) = -90 := by
    unfold meanAnomalyDeg jsRem jsTrunc
    norm_num
  exact ⟨h, by rw [h]; norm_num⟩

/-- C3 (amended): the mean anomaly is the JavaScript remainder
`(M0 + n·Δdays) % 360`, which carries the sign of its dividend; whenever
`M0 + n·Δdays ≥ 0` (in particular for all times after the epoch for
nonnegative `M0`) it equals the mathematical `mod 360` and lies in
`[0°, 360°)`. -/
theorem meanAnomaly_amended (data : OrbitalElements) (days : ℝ)
    (h : 0 ≤ data.L - data.varpi + 360 / data.orbitalPeriod * days) :
    meanAnomalyDeg data days =
      (data.L - data.varpi + 360 / data.orbitalPeriod * days)
        - 360 * ⌊(data.L - data.varpi + 360 / data.orbitalPeriod * days) / 360⌋ ∧
    0 ≤ meanAnomalyDeg data days ∧ meanAnomalyDeg data days < 360 := by
  set x := data.L - data.varpi + 360 / data.orbitalPeriod * days with hx
  have htr : jsTrunc (x / 360) = ⌊x / 360⌋ := by
    unfold jsTrunc
    rw [if_pos (div_nonneg h (by norm_num))]
  have heq : meanAnomalyDeg data days = x - 360 * ⌊x / 360⌋ := by
    unfold meanAnomalyDeg jsRem
    rw [← hx, htr]
  have hfl : (⌊x / 360⌋ : ℝ) ≤ x / 360 := Int.floor_le _
  have hlt : x / 360 < ⌊x / 360⌋ + 1 := Int.lt_floor_add_one _
  have hmul : 360 * (x / 360) = x := by ring
  refine ⟨heq, ?_, ?_⟩
  · rw [heq]
    nlinarith [hfl]
  · rw [heq]
    nlinarith [hlt]

/-- Witness for C3's amended statement: `L = 450`, `ϖ = 0`, period 360,
at the epoch itself. -/
theorem meanAnomaly_amended_witness :
    0 ≤ meanAnomalyDeg ⟨1, 0, 0, 0, 0, 450, 360⟩ 0 ∧
      meanAnomalyDeg ⟨1, 0, 0, 0, 0, 450, 360⟩ 0 < 360 :=
  (meanAnomaly_amended ⟨1, 0, 0, 0, 0, 450, 360⟩ 0 (by norm_num)).2

/-- C5 counterexample: at density 3000 kg/m³, speed 20000 m/s, diameter
100 m the computed kinetic energy is `π·10^17 J`, more than 100 times the
`6.28×10^14 J` the claim states. -/
theorem kineticEnergy_example_off :
    (impactCore 3000 20000 100).kinetic_energy_joules = Real.pi * 10 ^ 17 ∧
      6.28e14 * 100 < (impactCore 3000 20000 100).kinetic_energy_joules := by
  have h : (impactCore 3000 20000 100).kinetic_energy_joules
      = Real.pi * 10 ^ 17 := by
    simp only [impactCore, kineticEnergy]
    ring
  refine ⟨h, ?_⟩
  rw [h]
  nlinarith [Real.pi_gt_three]

/-- C5 (amended): the kinetic energy is `E = (π/12)·ρ·d³·v²`, and for
diameter 100 m, density 3000 kg/m³, speed 20000 m/s the result is
`E = π·10^17 ≈ 3.14×10^17 J ≈ 75.1 Mt` (not 6.28×10^14 J / 150 Mt). -/
theorem kineticEnergy_formula_example :
    (∀ d s dia : ℝ, kineticEnergy d s dia = Real.pi / 12 * d * dia ^ 3 * s ^ 2) ∧
    calculateImpactRadius 3000 20000 100 = some (impactCore 3000 20000 100) ∧
    (impactCore 3000 20000 100).kinetic_energy_joules = Real.pi * 10 ^ 17 ∧
    (3.1415 * 10 ^ 17 < (impactCore 3000 20000 100).kinetic_energy_joules ∧
      (impactCore 3000 20000 100).kinetic_energy_joules < 3.1416 * 10 ^ 17) ∧
    (75 < (impactCore 3000 20000 100).kinetic_energy_megatons ∧
      (impactCore 3000 20000 100).kinetic_energy_megatons < 75.2) := by
  have hJ : (impactCore 3000 20000 100).kinetic_energy_joules
      = Real.pi * 10 ^ 17 := by
    simp only [impactCore, kineticEnergy]
    ring
  have hMt : (impactCore 3000 20000 100).kinetic_energy_megatons
      = Real.pi * 10 ^ 17 / 4.184e15 := by
    simp only [impactCore, kineticEnergy]
    ring
  refine ⟨fun d s dia => rfl,
    by rw [calculateImpactRadius, if_neg (by norm_num)], hJ, ⟨?_, ?_⟩, ?_, ?_⟩
  · rw [hJ]
    nlinarith [Real.pi_gt_d6]
  · rw [hJ]
    nlinarith [Real.pi_lt_d6]
  · rw [hMt, lt_div_iff₀ (by norm_num)]
    nlinarith [Real.pi_gt_d6]
  · rw [hMt, div_lt_iff₀ (by norm_num)]
    nlinarith [Real.pi_lt_d6]

/-- The first branch of the interpretation ladder. -/
theorem psInterp_above_iff (PS : ℝ) :
    psInterp PS = PSBand.aboveBackground ↔ 0 < PS := by
  unfold psInterp
  split_ifs with h1 h2 <;> simp_all

/-- The middle branch of the interpretation ladder: a half-open band,
`PS = 0` included. -/
theorem psInterp_comparable_iff (PS : ℝ) :
    psInterp PS = PSBand.comparableToBackground ↔ -2 < PS ∧ PS ≤ 0 := by
  unfold psInterp
  split_ifs with h1 h2 <;> simp_all [not_lt]

/-- The last branch of the interpretation ladder. -/
theorem psInterp_below_iff (PS : ℝ) :
    psInterp PS = PSBand.wellBelowBackground ↔ PS ≤ -2 := by
  unfold psInterp
  split_ifs with h1 h2 <;> simp_all [not_lt]
  · linarith

/-- C6: for positive probability, years and background frequency, `recalc`
computes `PS = log10((Pi/Ti)/fB)` and interprets it as above background
iff `PS > 0`, comparable iff `−2 < PS ≤ 0` (so `PS = 0` is comparable),
and well below iff `PS ≤ −2`. -/
theorem palermo_scale_bands (pIm tIm fb : ℝ)
    (hp : 0 < pIm) (ht : 0 < tIm) (hf : 0 < fb) :
    recalcPS pIm tIm fb = some (palermoPS pIm tIm fb) ∧
    (psInterp (palermoPS pIm tIm fb) = PSBand.aboveBackground ↔
      0 < palermoPS pIm tIm fb) ∧
    (psInterp (palermoPS pIm tIm fb) = PSBand.comparableToBackground ↔
      -2 < palermoPS pIm tIm fb ∧ palermoPS pIm tIm fb ≤ 0) ∧
    (psInterp (palermoPS pIm tIm fb) = PSBand.wellBelowBackground ↔
      palermoPS pIm tIm fb ≤ -2) :=
  ⟨by unfold recalcPS; rw [if_pos ⟨hp, ht, hf⟩],
    psInterp_above_iff _, psInterp_comparable_iff _, psInterp_below_iff _⟩

/-- Witness for C6: the worked example `Pi = 1e-4`, `Ti = 10`,
`fB = 1e-5` gives `PS = 0`, classified comparable to background. -/
theorem palermo_scale_bands_witness :
    recalcPS 1e-4 10 1e-5 = some (palermoPS 1e-4 10 1e-5) ∧
    palermoPS 1e-4 10 1e-5 = 0 ∧
    psInterp (palermoPS 1e-4 10 1e-5) = PSBand.comparableToBackground := by
  have h := palermo_scale_bands 1e-4 10 1e-5 (by norm_num) (by norm_num)
    (by norm_num)
  have hps : palermoPS 1e-4 10 1e-5 = 0 := by
    unfold palermoPS
    rw [show (1e-4 : ℝ) / 10 / 1e-5 = 1 by norm_num, Real.logb_one]
  exact ⟨h.1, hps, (h.2.2.1).mpr (by rw [hps]; norm_num)⟩

/-- Larger energy gives strictly larger damage radii in all three zones. -/
theorem radii_lt_of_energy_lt (d1 s1 dia1 d2 s2 dia2 : ℝ)
    (h0 : 0 ≤ kineticEnergy d1 s1 dia1)
    (h : kineticEnergy d1 s1 dia1 < kineticEnergy d2 s2 dia2) :
    (impactCore d1 s1 dia1).severe_radius_km
        < (impactCore d2 s2 dia2).severe_radius_km ∧
      (impactCore d1 s1 dia1).moderate_radius_km
        < (impactCore d2 s2 dia2).moderate_radius_km ∧
      (impactCore d1 s1 dia1).light_radius_km
        < (impactCore d2 s2 dia2).light_radius_km := by
  have hc : cbrt (kineticEnergy d1 s1 dia1)
      < cbrt (kineticEnergy d2 s2 dia2) := by
    unfold cbrt
    rw [if_pos h0, if_pos (h0.trans h.le)]
    exact Real.rpow_lt_rpow h0 h (by norm_num)
  have hc0 : 0 ≤ cbrt (kineticEnergy d1 s1 dia1) := cbrt_nonneg _ h0
  simp only [impactCore]
  refine ⟨?_, ?_, ?_⟩ <;> gcongr

/-- C8: the kinetic energy and all three damage radii are strictly
increasing in density, in speed, and in diameter separately, holding the
other two inputs fixed, over positive inputs. -/
theorem impact_strict_mono (ρ s dia ρ' s' dia' : ℝ)
    (hρ : 0 < ρ) (hs : 0 < s) (hdia : 0 < dia)
    (hρ' : ρ < ρ') (hs' : s < s') (hdia' : dia < dia') :
    (kineticEnergy ρ s dia < kineticEnergy ρ' s dia ∧
      kineticEnergy ρ s dia < kineticEnergy ρ s' dia ∧
      kineticEnergy ρ s dia < kineticEnergy ρ s dia') ∧
    ((impactCore ρ s dia).severe_radius_km
        < (impactCore ρ' s dia).severe_radius_km ∧
      (impactCore ρ s dia).moderate_radius_km
        < (impactCore ρ' s dia).moderate_radius_km ∧
      (impactCore ρ s dia).light_radius_km
        < (impactCore ρ' s dia).light_radius_km) ∧
    ((impactCore ρ s dia).severe_radius_km
        < (impactCore ρ s' dia).severe_radius_km ∧
      (impactCore ρ s dia).moderate_radius_km
        < (impactCore ρ s' dia).moderate_radius_km ∧
      (impactCore ρ s dia).light_radius_km
        < (impactCore ρ s' dia).light_radius_km) ∧
    ((impactCore ρ s dia).severe_radius_km
        < (impactCore ρ s dia').severe_radius_km ∧
      (impactCore ρ s dia).moderate_radius_km
        < (impactCore ρ s dia').moderate_radius_km ∧
      (impactCore ρ s dia).light_radius_km
        < (impactCore ρ s dia').light_radius_km) := by
  have h0 : 0 ≤ kineticEnergy ρ s dia :=
    kineticEnergy_nonneg _ _ _ hρ.le hs.le hdia.le
  have e1 : kineticEnergy ρ s dia < kineticEnergy ρ' s dia := by
    unfold kineticEnergy; gcongr
  have e2 : kineticEnergy ρ s dia < kineticEnergy ρ s' dia := by
    unfold kineticEnergy; gcongr
  have e3 : kineticEnergy ρ s dia < kineticEnergy ρ s dia' := by
    unfold kineticEnergy; gcongr
  exact ⟨⟨e1, e2, e3⟩, radii_lt_of_energy_lt _ _ _ _ _ _ h0 e1,
    radii_lt_of_energy_lt _ _ _ _ _ _ h0 e2,
    radii_lt_of_energy_lt _ _ _ _ _ _ h0 e3⟩

/-- Witness for C8 at `(1, 1, 1)` against `(2, 2, 2)`. -/
theorem impact_strict_mono_witness :
    (kineticEnergy 1 1 1 < kineticEnergy 2 1 1 ∧
      kineticEnergy 1 1 1 < kineticEnergy 1 2 1 ∧
      kineticEnergy 1 1 1 < kineticEnergy 1 1 2) ∧
    ((impactCore 1 1 1).severe_radius_km < (impactCore 2 1 1).severe_radius_km ∧
      (impactCore 1 1 1).moderate_radius_km < (impactCore 2 1 1).moderate_radius_km ∧
      (impactCore 1 1 1).light_radius_km < (impactCore 2 1 1).light_radius_km) ∧
    ((impactCore 1 1 1).severe_radius_km < (impactCore 1 2 1).severe_radius_km ∧
      (impactCore 1 1 1).moderate_radius_km < (impactCore 1 2 1).moderate_radius_km ∧
      (impactCore 1 1 1).light_radius_km < (impactCore 1 2 1).light_radius_km) ∧
    ((impactCore 1 1 1).severe_radius_km < (impactCore 1 1 2).severe_radius_km ∧
      (impactCore 1 1 1).moderate_radius_km < (impactCore 1 1 2).moderate_radius_km ∧
      (impactCore 1 1 1).light_radius_km < (impactCore 1 1 2).light_radius_km) :=
  impact_strict_mono 1 1 1 2 2 2 (by norm_num) (by norm_num) (by norm_num)
    (by norm_num) (by norm_num) (by norm_num)

/-- C10: `estimateCasualties` rejects (throws) exactly when an input is
negative — the check is `x < 0`, so zero-valued inputs are accepted; with
all three radii zero every zone's casualties, the total and all affected
areas are zero; an omitted population density defaults to 100. -/
theorem estimateCasualties_edge_behavior (sr mr lr pd : ℝ) :
    (estimateCasualties sr mr lr pd = none ↔
      sr < 0 ∨ mr < 0 ∨ lr < 0 ∨ pd < 0) ∧
    (0 ≤ pd → estimateCasualties 0 0 0 pd = some ⟨0, 0, 0, 0, 0, 0, 0, 0⟩) ∧
    estimateCasualties sr mr lr = estimateCasualties sr mr lr 100 := by
  refine ⟨?_, ?_, rfl⟩
  · unfold estimateCasualties
    split_ifs with h
    · simp [h]
    · simp [h]
  · intro hpd
    unfold estimateCasualties
    rw [if_neg (by push_neg; exact ⟨le_rfl, le_rfl, le_rfl, hpd⟩)]
    norm_num [jsRound, CasualtyResult.mk.injEq]

end AstroScope
